import Mathlib

/-!
Verification development for the maintainly backend task-lifecycle core.

The definitions below are a shallow embedding of the JavaScript source:
`src/models/Task.js`, `src/controllers/tasksController.js`, the task routes
(`routes/tasks.js`, stored in the repo as part of `routes/dashboard.js`'s
file group) and the role middleware (`middleware/roleMiddleware.js`).

Modelling conventions:
* MongoDB ObjectIds are `Nat`; dates are `Nat` timestamps (`now` is passed
  explicitly where the code calls `new Date()`).
* A Mongoose document field that may be absent is an `Option`.
* A Mongoose query filter is a record of `Option` constraints; a key whose
  JavaScript value is `undefined` is dropped from the query by Mongoose, which
  is modelled by the constraint being `none` (no constraint).
* Each controller returns the HTTP response (`Except ApiError Task`) together
  with the store after the request; on every error path the store is returned
  unchanged, exactly as the code returns before any `save()`.
* The Express error taxonomy of the spec is mapped onto the concrete HTTP
  responses of the source: 404 responses are `notFound`, 403 are `forbidden`,
  the 400 guard violations quoting the current status are `stateConflict`,
  the 400 invalid-reference responses are `invalidReference`, the 400 photo
  URL rejection is `invalidPayload`, and express-validator failures are
  `validationFailed`.  The message strings are the source's.
-/

namespace Maintainly

/-- User roles (`src/models/User.js`: role enum `Admin` / `Manager`).
The spec calls these `Owner` and `Operator`. -/
inductive Role where
  | Admin
  | Manager
  deriving DecidableEq, Repr

/-- Task priority enum (`src/models/Task.js` lines 34-38). -/
inductive Priority where
  | Low
  | Medium
  | High
  | Critical
  deriving DecidableEq, Repr

/-- Task status enum (`src/models/Task.js` lines 39-43). -/
inductive Status where
  | Pending
  | InProgress
  | PendingVerification
  | Completed
  | RequiresAttention
  deriving DecidableEq, Repr

/-- The string stored in MongoDB for a priority (the enum values are strings). -/
def priorityStr : Priority → String
  | .Low => "Low"
  | .Medium => "Medium"
  | .High => "High"
  | .Critical => "Critical"

/-- The string stored in MongoDB for a status. -/
def statusToString : Status → String
  | .Pending => "Pending"
  | .InProgress => "InProgress"
  | .PendingVerification => "PendingVerification"
  | .Completed => "Completed"
  | .RequiresAttention => "RequiresAttention"

/-- The ordinal urgency rank of a priority as the spec reads it
(`Low < Medium < High < Critical`). -/
def priorityRank : Priority → Nat
  | .Low => 0
  | .Medium => 1
  | .High => 2
  | .Critical => 3

/-- A task document (`src/models/Task.js`).  The `issueRef` sub-document and
the bookkeeping timestamps are omitted: no modelled operation reads them. -/
structure Task where
  id : Nat
  title : String
  description : String
  assetId : Nat
  societyId : Nat
  adminId : Nat
  assignedManagerId : Nat
  priority : Priority
  status : Status
  scheduledDate : Nat
  estimatedDuration : Nat
  actualStartTime : Option Nat
  actualEndTime : Option Nat
  verificationPhotoUrl : Option String
  verificationNotes : Option String
  completionNotes : Option String
  adminNotes : Option String
  rejectionReason : Option String
  verifiedBy : Option Nat
  verifiedAt : Option Nat
  isActive : Bool
  deriving DecidableEq, Repr

/-- A user document (`src/models/User.js`): role, and for managers the
employing admin's id (`adminId`, absent for admins). -/
structure User where
  id : Nat
  role : Role
  adminId : Option Nat
  isActive : Bool
  deriving DecidableEq, Repr

/-- An asset document (`src/models/Asset.js`), restricted to the fields read
by `createTask`. -/
structure Asset where
  id : Nat
  adminId : Nat
  societyId : Nat
  isActive : Bool
  deriving DecidableEq, Repr

/-- The persistent store backing the controllers. -/
structure Store where
  tasks : List Task
  users : List User
  assets : List Asset
  deriving DecidableEq, Repr

/-- Errors returned by the handlers, labelled by the spec's taxonomy; each
carries the source's message string. -/
inductive ApiError where
  | validationFailed (msg : String)
  | notFound (msg : String)
  | forbidden (msg : String)
  | stateConflict (msg : String)
  | invalidReference (msg : String)
  | invalidPayload (msg : String)
  deriving DecidableEq, Repr

/-- The HTTP status code the source attaches to each error response. -/
def ApiError.httpStatus : ApiError → Nat
  | .validationFailed _ => 400
  | .notFound _ => 404
  | .forbidden _ => 403
  | .stateConflict _ => 400
  | .invalidReference _ => 400
  | .invalidPayload _ => 400

instance {ε α : Type} [DecidableEq ε] [DecidableEq α] : DecidableEq (Except ε α) := fun x y =>
  match x, y with
  | .error e, .error f => decidable_of_iff (e = f) (by simp)
  | .ok a, .ok b => decidable_of_iff (a = b) (by simp)
  | .error _, .ok _ => isFalse (fun h => Except.noConfusion h)
  | .ok _, .error _ => isFalse (fun h => Except.noConfusion h)

/-- The result of one request: the HTTP response body (a task on success, an
error otherwise) and the store after the request. -/
abbrev OpResult := Except ApiError Task × Store

/-- A Mongoose filter on the task collection.  `none` means the key is absent
from the query (including the case where the JavaScript value was
`undefined`, which Mongoose strips from query filters). -/
structure TaskFilter where
  id : Option Nat := none
  adminId : Option Nat := none
  assignedManagerId : Option Nat := none
  status : Option Status := none
  priority : Option Priority := none
  societyId : Option Nat := none
  assetId : Option Nat := none
  isActive : Option Bool := none
  deriving DecidableEq, Repr

/-- One filter constraint: absent constraints match everything. -/
def optMatch {α : Type} [DecidableEq α] (c : Option α) (v : α) : Bool :=
  match c with
  | none => true
  | some x => x = v

/-- Whether a task document matches a filter (conjunction of the present
constraints, as in a MongoDB query document). -/
def taskMatches (f : TaskFilter) (t : Task) : Bool :=
  optMatch f.id t.id &&
  optMatch f.adminId t.adminId &&
  optMatch f.assignedManagerId t.assignedManagerId &&
  optMatch f.status t.status &&
  optMatch f.priority t.priority &&
  optMatch f.societyId t.societyId &&
  optMatch f.assetId t.assetId &&
  optMatch f.isActive t.isActive

/-- Model of `Task.findOne(filter)`. -/
def findTask (s : Store) (f : TaskFilter) : Option Task :=
  s.tasks.find? (taskMatches f)

/-- Model of `task.save()` after mutating a found document: the document with this id
is replaced by the new value. -/
def saveTask (s : Store) (t : Task) : Store :=
  { s with tasks := s.tasks.map (fun x => if x.id = t.id then t else x) }

/-- Middleware `requireResourceOwnership` (`middleware/roleMiddleware.js`): Admins get
their own id as resolved scope, Managers their employer's id (which the user
document may lack). -/
def requireResourceOwnership (u : User) : Option Nat :=
  match u.role with
  | .Admin => some u.id
  | .Manager => u.adminId

/-- List-level check that `l` starts with the pattern `p`. -/
def startsWithL : List Char → List Char → Bool
  | _, [] => true
  | [], _ :: _ => false
  | c :: cs, p :: ps => c = p && startsWithL cs ps

/-- List-level substring search (JavaScript `String.prototype.includes`). -/
def containsL (n : List Char) : List Char → Bool
  | [] => n.isEmpty
  | c :: t => startsWithL (c :: t) n || containsL n t

/-- JavaScript `haystack.includes(needle)`. -/
def strIncludes (haystack needle : String) : Bool :=
  containsL needle.data haystack.data

/-- List-level check that `l` ends with the pattern `p`. -/
def endsWithL (l p : List Char) : Bool :=
  startsWithL l.reverse p.reverse

/-- ASCII whitespace, as trimmed by `String.prototype.trim` and the
express-validator `trim()` sanitizer (restricted to the characters that occur
in the modelled inputs). -/
def isSpaceC (c : Char) : Bool :=
  c = ' ' || c = '\t' || c = '\n' || c = '\r'

/-- JavaScript `String.prototype.trim` over the embedded strings. -/
def jsTrim (s : String) : String :=
  String.mk (((s.data.dropWhile isSpaceC).reverse.dropWhile isSpaceC).reverse)

/-- The trusted-domain substring hard-coded in `submitForVerification`
(`tasksController.js` line 449). -/
def supabasePublicMarker : String :=
  "supabase.co/storage/v1/object/public/"

/-- The host part of a URL: what stands between the scheme separator and the
first following slash. -/
def hostOf (url : String) : String :=
  let rest :=
    if startsWithL url.data ("https://".data) then url.data.drop 8
    else if startsWithL url.data ("http://".data) then url.data.drop 7
    else url.data
  String.mk (rest.takeWhile (fun c => !(c = '/')))

/-- Modelled from the spec's words, for comparison with the source's check:
a URL "belongs to the trusted evidence-store domain" when its host is the
evidence store's domain (`supabase.co` or a subdomain of it). -/
def specTrustedDomain (url : String) : Bool :=
  hostOf url = "supabase.co" || endsWithL (hostOf url).data (".supabase.co".data)

/-- The filter built by `startTask` (`tasksController.js` lines 350-361):
managers must be the assigned manager; the `adminId` constraint is
`req.resourceAdminId`, which the `/:id/start` route never sets. -/
def startFilter (u : User) (rid : Option Nat) (tid : Nat) : TaskFilter :=
  if u.role = Role.Manager then
    { id := some tid, isActive := some true, assignedManagerId := some u.id, adminId := rid }
  else
    { id := some tid, isActive := some true, adminId := rid }

/-- The read-and-check phase of `startTask` (`tasksController.js` lines
363-380): find the task, guard on `Pending`, and compute the document that
the subsequent `save()` will write.  The source performs this read and the
write as two separate store operations (`findOne` then `save`), not as one
atomic conditional update. -/
def startRead (s : Store) (u : User) (rid : Option Nat) (tid : Nat) (now : Nat) :
    Except ApiError Task :=
  match findTask s (startFilter u rid tid) with
  | none => .error (.notFound "Task not found or not assigned to you")
  | some t =>
    if t.status = Status.Pending then
      .ok { t with status := Status.InProgress, actualStartTime := some now }
    else
      .error (.stateConflict ("Cannot start task. Current status: " ++ statusToString t.status))

/-- Controller `startTask` (`tasksController.js` lines 339-399): the read phase followed
immediately by the write phase. -/
def startTask (s : Store) (u : User) (rid : Option Nat) (tid : Nat) (now : Nat) : OpResult :=
  match startRead s u rid tid now with
  | .error e => (.error e, s)
  | .ok t' => (.ok t', saveTask s t')

/-- The filter built by `submitForVerification` (`tasksController.js` lines
419-430): for managers only the assignment is checked (the source comments
that `adminId` is deliberately not added); for admins the filter uses
`req.resourceAdminId`, which the submit route never sets. -/
def submitFilter (u : User) (rid : Option Nat) (tid : Nat) : TaskFilter :=
  if u.role = Role.Manager then
    { id := some tid, isActive := some true, assignedManagerId := some u.id }
  else
    { id := some tid, isActive := some true, adminId := rid }

/-- Controller `submitForVerification` (`tasksController.js` lines 406-478): guard on
`InProgress`, then accept the photo URL iff it contains the Supabase public
storage marker as a substring, then persist URL, notes, and `actualEndTime`. -/
def submitForVerification (s : Store) (u : User) (rid : Option Nat) (tid : Nat)
    (photoUrl : String) (completionNotes : Option String) (now : Nat) : OpResult :=
  match findTask s (submitFilter u rid tid) with
  | none => (.error (.notFound "Task not found or not assigned to you"), s)
  | some t =>
    if t.status = Status.InProgress then
      if strIncludes photoUrl supabasePublicMarker then
        let t' := { t with
          status := Status.PendingVerification,
          verificationPhotoUrl := some photoUrl,
          completionNotes := completionNotes,
          actualEndTime := some now }
        (.ok t', saveTask s t')
      else
        (.error (.invalidPayload "Invalid photo URL. Must be a valid Supabase storage URL."), s)
    else
      (.error (.stateConflict ("Cannot submit for verification. Current status: " ++ statusToString t.status)), s)

/-- Verification action, restricted by the route validator
(`routes/tasks.js`, verify route: `action` must be `approve` or `reject`). -/
inductive VerifyAction where
  | approve
  | reject
  deriving DecidableEq, Repr

/-- Route-level validation of the verify request body (`routes/tasks.js`,
`POST /:id/verify`): when the action is `reject`, `rejectionReason` must be
present and non-empty, and after the `trim()` sanitizer its length must lie
between 5 and 500. -/
def verifyValidation (action : VerifyAction) (rejectionReason : Option String) : Bool :=
  match action with
  | .approve => true
  | .reject =>
    match rejectionReason with
    | none => false
    | some r => !(r = "") && decide (5 <= (jsTrim r).length) && decide ((jsTrim r).length <= 500)

/-- Controller `verifyTask` (`tasksController.js` lines 485-570): only the
owning admin may verify; guard on `PendingVerification`; approve sets
`Completed`, reject sets `RequiresAttention` and stores the rejection reason;
in both branches the verifier identity and time are recorded.  Approval does
not touch `rejectionReason`. -/
def verifyTask (s : Store) (u : User) (tid : Nat) (action : VerifyAction)
    (verificationNotes : Option String) (rejectionReason : Option String) (now : Nat) :
    OpResult :=
  if u.role = Role.Admin then
    match findTask s { id := some tid, isActive := some true, adminId := some u.id } with
    | none => (.error (.notFound "Task not found"), s)
    | some t =>
      if t.status = Status.PendingVerification then
        let t1 :=
          match action with
          | .approve => { t with status := Status.Completed, verificationNotes := verificationNotes }
          | .reject => { t with status := Status.RequiresAttention,
                                rejectionReason := rejectionReason,
                                verificationNotes := verificationNotes }
        let t2 := { t1 with verifiedBy := some u.id, verifiedAt := some now }
        (.ok t2, saveTask s t2)
      else
        (.error (.stateConflict ("Cannot verify task. Current status: " ++ statusToString t.status)), s)
  else
    (.error (.forbidden "Access denied. Only admins can verify tasks."), s)

/-- The verify route (`routes/tasks.js` `POST /:id/verify`): express-validator
runs first; the `trim()` sanitizer replaces the body's `rejectionReason` with
its trimmed value before the controller reads it. -/
def verifyRoute (s : Store) (u : User) (tid : Nat) (action : VerifyAction)
    (verificationNotes : Option String) (rejectionReason : Option String) (now : Nat) :
    OpResult :=
  if verifyValidation action rejectionReason then
    verifyTask s u tid action verificationNotes (rejectionReason.map jsTrim) now
  else
    (.error (.validationFailed "Validation failed"), s)

/-- The update payload of `PATCH /api/tasks/:id`.  The route validators check
the listed fields but express-validator does not strip unknown body fields, so
a `status` or `rejectionReason` field in the body reaches the controller and
is written by `findOneAndUpdate` (the schema's `runValidators` only restricts
`status` to the enum, which the `Status` type already enforces). -/
structure TaskUpdate where
  title : Option String := none
  description : Option String := none
  assignedManagerId : Option Nat := none
  priority : Option Priority := none
  status : Option Status := none
  scheduledDate : Option Nat := none
  estimatedDuration : Option Nat := none
  adminNotes : Option String := none
  rejectionReason : Option String := none
  deriving DecidableEq, Repr

/-- Application of an update document to a task: present fields overwrite. -/
def applyUpdate (upd : TaskUpdate) (t : Task) : Task :=
  { t with
    title := upd.title.getD t.title,
    description := upd.description.getD t.description,
    assignedManagerId := upd.assignedManagerId.getD t.assignedManagerId,
    priority := upd.priority.getD t.priority,
    status := upd.status.getD t.status,
    scheduledDate := upd.scheduledDate.getD t.scheduledDate,
    estimatedDuration := upd.estimatedDuration.getD t.estimatedDuration,
    adminNotes := match upd.adminNotes with
      | none => t.adminNotes
      | some v => some v,
    rejectionReason := match upd.rejectionReason with
      | none => t.rejectionReason
      | some v => some v }

/-- Lookup of a manager under an admin's scope, as `createTask` and
`updateTask` perform it: `User.findOne({_id, role: Manager, adminId, isActive})`. -/
def findManagerUnder (s : Store) (adminId : Nat) (managerId : Nat) : Option User :=
  s.users.find? (fun x =>
    x.id = managerId && x.role = Role.Manager && x.adminId = some adminId && x.isActive)

/-- Controller `updateTask` (`tasksController.js` lines 226-290): when the
payload reassigns the manager, the new manager must resolve under the acting
admin (`req.user.id`); then `findOneAndUpdate` on
`{_id, adminId: req.resourceAdminId, isActive: true}` applies the payload. -/
def updateTask (s : Store) (u : User) (rid : Option Nat) (tid : Nat) (upd : TaskUpdate) :
    OpResult :=
  let managerOk :=
    match upd.assignedManagerId with
    | none => true
    | some m => (findManagerUnder s u.id m).isSome
  if managerOk then
    match findTask s { id := some tid, adminId := rid, isActive := some true } with
    | none => (.error (.notFound "Task not found"), s)
    | some t =>
      let t' := applyUpdate upd t
      (.ok t', saveTask s t')
  else
    (.error (.invalidReference "Invalid manager ID or manager not found"), s)

/-- Controller `deleteTask` (`tasksController.js` lines 297-332): a soft
delete via `findOneAndUpdate` setting `isActive: false` under the resolved
admin scope. -/
def deleteTask (s : Store) (_u : User) (rid : Option Nat) (tid : Nat) : OpResult :=
  match findTask s { id := some tid, adminId := rid, isActive := some true } with
  | none => (.error (.notFound "Task not found"), s)
  | some t =>
    let t' := { t with isActive := false }
    (.ok t', saveTask s t')

/-- The creation request body of `POST /api/tasks` after express-validator's
type checks (the body is spread into the new document, so a `status` field in
the body would be persisted; here it defaults to the schema default). -/
structure CreateTaskInput where
  title : String
  description : String
  assetId : Nat
  assignedManagerId : Nat
  priority : Priority := Priority.Medium
  status : Status := Status.Pending
  scheduledDate : Nat
  estimatedDuration : Nat := 60
  deriving DecidableEq, Repr

/-- Route-level validation of the creation body (`routes/tasks.js`
`POST /`): trimmed title length 5-200, trimmed description length 10-1000,
estimated duration 15-1440. -/
def createValidation (inp : CreateTaskInput) : Bool :=
  decide (5 <= (jsTrim inp.title).length) && decide ((jsTrim inp.title).length <= 200) &&
  decide (10 <= (jsTrim inp.description).length) && decide ((jsTrim inp.description).length <= 1000) &&
  decide (15 <= inp.estimatedDuration) && decide (inp.estimatedDuration <= 1440)

/-- Controller `createTask` (`tasksController.js` lines 151-219): the asset
must resolve under `{_id, adminId: req.user.id, isActive: true}` and the
manager under `{_id, role: Manager, adminId: req.user.id, isActive: true}`;
only then is the task constructed (with `adminId := req.user.id` and the
asset's `societyId`) and saved.  `newId` stands for the ObjectId MongoDB
assigns to the inserted document. -/
def createTask (s : Store) (u : User) (inp : CreateTaskInput) (newId : Nat) : OpResult :=
  match s.assets.find? (fun a => a.id = inp.assetId && a.adminId = u.id && a.isActive) with
  | none => (.error (.invalidReference "Invalid asset ID or asset not found"), s)
  | some asset =>
    match findManagerUnder s u.id inp.assignedManagerId with
    | none => (.error (.invalidReference "Invalid manager ID or manager not found"), s)
    | some _ =>
      let t : Task := {
        id := newId,
        title := jsTrim inp.title,
        description := jsTrim inp.description,
        assetId := inp.assetId,
        societyId := asset.societyId,
        adminId := u.id,
        assignedManagerId := inp.assignedManagerId,
        priority := inp.priority,
        status := inp.status,
        scheduledDate := inp.scheduledDate,
        estimatedDuration := inp.estimatedDuration,
        actualStartTime := none,
        actualEndTime := none,
        verificationPhotoUrl := none,
        verificationNotes := none,
        completionNotes := none,
        adminNotes := none,
        rejectionReason := none,
        verifiedBy := none,
        verifiedAt := none,
        isActive := true }
      (.ok t, { s with tasks := s.tasks ++ [t] })

/-- The create route (`routes/tasks.js` `POST /`): `requireAdmin`, then the
body validators, then the controller. -/
def createTaskRoute (s : Store) (u : User) (inp : CreateTaskInput) (newId : Nat) : OpResult :=
  if u.role = Role.Admin then
    if createValidation inp then createTask s u inp newId
    else (.error (.validationFailed "Validation failed"), s)
  else
    (.error (.forbidden "Access denied. Required role(s): Admin. Your role: Manager"), s)

/-- The role-dependent filter of `getTasks` and `getTaskById`
(`tasksController.js` lines 26-47 and 104-120): admins see their own tasks;
managers see tasks assigned to them, further restricted to their admin when
`req.user.adminId` is set. -/
def readScopeFilter (u : User) : TaskFilter :=
  if u.role = Role.Admin then
    { isActive := some true, adminId := some u.id }
  else
    { isActive := some true, assignedManagerId := some u.id, adminId := u.adminId }

/-- Controller `getTaskById` (`tasksController.js` lines 93-144): the scoped
lookup, answering 404 when nothing matches. -/
def getTaskById (s : Store) (u : User) (tid : Nat) : Except ApiError Task :=
  match findTask s { readScopeFilter u with id := some tid } with
  | none => .error (.notFound "Task not found")
  | some t => .ok t

/-- The optional query filters of `GET /api/tasks`
(`tasksController.js` lines 43-47) with the pagination defaults. -/
structure TaskQuery where
  status : Option Status := none
  priority : Option Priority := none
  societyId : Option Nat := none
  assetId : Option Nat := none
  page : Nat := 1
  limit : Nat := 20
  deriving DecidableEq, Repr

/-- Strict bytewise lexicographic comparison of strings as char lists; for
the ASCII enum names this is exactly MongoDB's binary string comparison. -/
def lexLtL : List Char → List Char → Bool
  | [], [] => false
  | [], _ :: _ => true
  | _ :: _, [] => false
  | a :: as, b :: bs => if a = b then lexLtL as bs else decide (a < b)

/-- Strict MongoDB string order on priorities: `priority` is a *string*
field, so MongoDB compares the enum names bytewise, not by urgency rank. -/
def priorityLex (a b : Priority) : Bool :=
  lexLtL (priorityStr a).data (priorityStr b).data

/-- The MongoDB sort order requested by `getTasks`
(`.sort({scheduledDate: 1, priority: -1})`, `tasksController.js` line 64):
ascending scheduled date, and for equal dates descending string `priority`. -/
def mongoTaskLE (a b : Task) : Prop :=
  a.scheduledDate < b.scheduledDate ∨
    (a.scheduledDate = b.scheduledDate ∧ priorityLex a.priority b.priority = false)

instance : DecidableRel mongoTaskLE := fun a b => by
  unfold mongoTaskLE
  infer_instance

instance : IsTotal Task mongoTaskLE where
  total a b := by
    have htot : ∀ x y : Priority, priorityLex x y = false ∨ priorityLex y x = false := by
      intro x y
      cases x <;> cases y <;> decide
    unfold mongoTaskLE
    rcases Nat.lt_trichotomy a.scheduledDate b.scheduledDate with h | h | h
    · exact Or.inl (Or.inl h)
    · rcases htot a.priority b.priority with hp | hp
      · exact Or.inl (Or.inr ⟨h, hp⟩)
      · exact Or.inr (Or.inr ⟨h.symm, hp⟩)
    · exact Or.inr (Or.inl h)

instance : IsTrans Task mongoTaskLE where
  trans a b c hab hbc := by
    have htr : ∀ x y z : Priority, priorityLex x y = false → priorityLex y z = false →
        priorityLex x z = false := by
      intro x y z
      cases x <;> cases y <;> cases z <;> decide
    unfold mongoTaskLE at *
    rcases hab with h1 | ⟨e1, p1⟩
    · rcases hbc with h2 | ⟨e2, _⟩
      · exact Or.inl (h1.trans h2)
      · exact Or.inl (e2 ▸ h1)
    · rcases hbc with h2 | ⟨e2, p2⟩
      · exact Or.inl (e1 ▸ h2)
      · exact Or.inr ⟨e1.trans e2, htr a.priority b.priority c.priority p1 p2⟩

/-- Controller `getTasks` (`tasksController.js` lines 13-86): the scoped and
query-filtered task list, sorted by the MongoDB sort order above, then
paginated with `skip`/`limit`. -/
def getTasks (s : Store) (u : User) (q : TaskQuery) : List Task :=
  let f := { readScopeFilter u with
    status := q.status, priority := q.priority,
    societyId := q.societyId, assetId := q.assetId }
  let sorted := (s.tasks.filter (taskMatches f)).insertionSort mongoTaskLE
  (sorted.drop ((q.page - 1) * q.limit)).take q.limit

/-- The start route (`routes/tasks.js` `POST /:id/start`): it applies
`requireAdminOrManager` but *not* `requireResourceOwnership`, so
`req.resourceAdminId` is `undefined` when the controller runs. -/
def startTaskRoute (s : Store) (u : User) (tid : Nat) (now : Nat) : OpResult :=
  startTask s u none tid now

/-- The submit route (`routes/tasks.js` `POST /:id/submit-for-verification`):
it also omits `requireResourceOwnership`, so `req.resourceAdminId` is
`undefined` when the controller runs. -/
def submitRoute (s : Store) (u : User) (tid : Nat) (photoUrl : String)
    (completionNotes : Option String) (now : Nat) : OpResult :=
  submitForVerification s u none tid photoUrl completionNotes now

/-- The update route (`routes/tasks.js` `PATCH /:id`): `requireAdmin` and
`requireResourceOwnership` run before the controller. -/
def updateTaskRoute (s : Store) (u : User) (tid : Nat) (upd : TaskUpdate) : OpResult :=
  if u.role = Role.Admin then
    updateTask s u (requireResourceOwnership u) tid upd
  else
    (.error (.forbidden "Access denied. Required role(s): Admin. Your role: Manager"), s)

/-- The delete route (`routes/tasks.js` `DELETE /:id`): `requireAdmin` and
`requireResourceOwnership` run before the controller. -/
def deleteTaskRoute (s : Store) (u : User) (tid : Nat) : OpResult :=
  if u.role = Role.Admin then
    deleteTask s u (requireResourceOwnership u) tid
  else
    (.error (.forbidden "Access denied. Required role(s): Admin. Your role: Manager"), s)

/-! ### Concrete instances used by the claim theorems and witnesses -/

/-- A template task document with every optional field unset. -/
def baseTask : Task := {
  id := 0,
  title := "Quarterly asset inspection",
  description := "Inspect the asset and record its condition",
  assetId := 3,
  societyId := 4,
  adminId := 1,
  assignedManagerId := 10,
  priority := Priority.Medium,
  status := Status.Pending,
  scheduledDate := 100,
  estimatedDuration := 60,
  actualStartTime := none,
  actualEndTime := none,
  verificationPhotoUrl := none,
  verificationNotes := none,
  completionNotes := none,
  adminNotes := none,
  rejectionReason := none,
  verifiedBy := none,
  verifiedAt := none,
  isActive := true }

/-- Manager 10 employed by admin 1. -/
def c1Mgr : User := { id := 10, role := Role.Manager, adminId := some 1, isActive := true }

/-- A task owned by admin 2 but listing manager 10 (employed by admin 1) as
its assignee. -/
def c1Task : Task := { baseTask with
  id := 5, adminId := 2, status := Status.InProgress, actualStartTime := some 90 }

def c1Store : Store := { tasks := [c1Task], users := [c1Mgr], assets := [] }

/-- A genuine evidence-store URL. -/
def c1Url : String := "https://abc.supabase.co/storage/v1/object/public/task-photos/p.jpg"

/-- Data for the C1 witness: admin 1 touching a task owned by admin 2. -/
def c1wAdmin : User := { id := 1, role := Role.Admin, adminId := none, isActive := true }

def c1wTask : Task := { baseTask with id := 7, adminId := 2 }

def c1wStore : Store := { tasks := [c1wTask], users := [], assets := [] }

def c2Admin : User := { id := 1, role := Role.Admin, adminId := none, isActive := true }

def c2Task : Task := { baseTask with id := 6 }

def c2Store : Store := { tasks := [c2Task], users := [], assets := [] }

def c3Admin : User := { id := 1, role := Role.Admin, adminId := none, isActive := true }

/-- A task awaiting verification by its owner, admin 1. -/
def c3Task : Task := { baseTask with
  id := 8, status := Status.PendingVerification, actualStartTime := some 90,
  actualEndTime := some 95,
  verificationPhotoUrl := some "https://abc.supabase.co/storage/v1/object/public/task-photos/a.jpg" }

def c3Store : Store := { tasks := [c3Task], users := [], assets := [] }

/-- The store after `Verify(reject, "blurry photo")`. -/
def c3AfterReject : Store :=
  (verifyRoute c3Store c3Admin 8 VerifyAction.reject none (some "blurry photo") 50).2

/-- The store after the owner's general edit sets the status field back to
`PendingVerification` (the unguarded `PATCH /api/tasks/:id` path). -/
def c3Reset : Store :=
  (updateTaskRoute c3AfterReject c3Admin 8 { status := some Status.PendingVerification }).2

/-- The store after the subsequent `Verify(approve)`. -/
def c3Final : Store :=
  (verifyRoute c3Reset c3Admin 8 VerifyAction.approve (some "looks good") none 60).2

def c4Mgr : User := { id := 10, role := Role.Manager, adminId := some 1, isActive := true }

def c4Task : Task := { baseTask with
  id := 9, status := Status.InProgress, actualStartTime := some 90 }

def c4Store : Store := { tasks := [c4Task], users := [c4Mgr], assets := [] }

/-- A URL whose host is not the evidence store but whose *path* embeds the
marker substring the controller greps for. -/
def c4EvilUrl : String := "https://evil.example.com/supabase.co/storage/v1/object/public/pic.jpg"

/-- A URL without the marker substring, used by the C4 witness. -/
def c4BadUrl : String := "https://storage.googleapis.com/bucket/pic.jpg"

/-- A genuine evidence-store URL, used by the C4 witness. -/
def c4GoodUrl : String := "https://abc.supabase.co/storage/v1/object/public/task-photos/q.jpg"

def c5Admin : User := { id := 1, role := Role.Admin, adminId := none, isActive := true }

/-- A `Critical` task scheduled at date 100. -/
def c5TaskC : Task := { baseTask with id := 1, priority := Priority.Critical }

/-- A `Medium` task scheduled at the same date 100. -/
def c5TaskM : Task := { baseTask with id := 2, priority := Priority.Medium }

def c5Store : Store := { tasks := [c5TaskC, c5TaskM], users := [], assets := [] }

def c6Admin : User := { id := 1, role := Role.Admin, adminId := none, isActive := true }

/-- An asset owned by admin 2, not by the acting admin 1. -/
def c6Asset : Asset := { id := 30, adminId := 2, societyId := 4, isActive := true }

def c6Mgr : User := { id := 10, role := Role.Manager, adminId := some 1, isActive := true }

def c6Store : Store := { tasks := [], users := [c6Mgr], assets := [c6Asset] }

def c6Inp : CreateTaskInput := {
  title := "Inspect water pump",
  description := "Check the pump for leaks and abnormal noise",
  assetId := 30,
  assignedManagerId := 10,
  scheduledDate := 100 }

def c7Mgr : User := { id := 10, role := Role.Manager, adminId := some 1, isActive := true }

/-- A task under manager 10's employer but assigned to manager 11. -/
def c7Task : Task := { baseTask with id := 7, assignedManagerId := 11 }

def c7Store : Store := { tasks := [c7Task], users := [], assets := [] }

def c8Admin : User := { id := 1, role := Role.Admin, adminId := none, isActive := true }

def c8Task : Task := { baseTask with
  id := 11, status := Status.PendingVerification, actualStartTime := some 90,
  actualEndTime := some 95 }

def c8Store : Store := { tasks := [c8Task], users := [], assets := [] }

def c9Mgr : User := { id := 10, role := Role.Manager, adminId := some 1, isActive := true }

def c9Task : Task := { baseTask with id := 3 }

def c9Store : Store := { tasks := [c9Task], users := [c9Mgr], assets := [] }

/-- What the first `Start` call's read phase computes and will save. -/
def c9T1 : Task := { c9Task with status := Status.InProgress, actualStartTime := some 10 }

/-- What the second `Start` call's read phase computes and will save. -/
def c9T2 : Task := { c9Task with status := Status.InProgress, actualStartTime := some 11 }

def c10Mgr : User := { id := 10, role := Role.Manager, adminId := some 1, isActive := true }

def c10Task : Task := { baseTask with
  id := 12, status := Status.InProgress, actualStartTime := some 90 }

def c10Store : Store := { tasks := [c10Task], users := [c10Mgr], assets := [] }

/-- A URL on an attacker-controlled host that embeds the marker substring in
its path. -/
def c10Url : String := "https://files.attacker.net/supabase.co/storage/v1/object/public/fake.png"


/-- Data for the C2 witness: an `InProgress` task that `Start` must refuse. -/
def c2wTask : Task := { baseTask with
  id := 13, status := Status.InProgress, actualStartTime := some 90 }

def c2wStore : Store := { tasks := [c2wTask], users := [], assets := [] }

/-! ### Claim theorems -/

/-- Helper: a filter matches no task when every task fails it. -/
theorem findTask_eq_none_of (s : Store) (f : TaskFilter)
    (h : ∀ t ∈ s.tasks, taskMatches f t = false) : findTask s f = none := by
  unfold findTask
  rw [List.find?_eq_none]
  intro t ht
  simp [h t ht]

/-- Helper: a task fails a filter that pins the id and an owning admin the
task does not have. -/
theorem taskMatches_false_of_admin (f : TaskFilter) (t : Task) (tid a : Nat)
    (hid : f.id = some tid) (had : f.adminId = some a)
    (h : t.id = tid → t.adminId ≠ a) : taskMatches f t = false := by
  unfold taskMatches optMatch
  rw [hid, had]
  by_cases ht : t.id = tid
  · have hne : a ≠ t.adminId := fun he => h ht he.symm
    simp [ht, hne]
  · have hne : tid ≠ t.id := fun he => ht he.symm
    simp [hne]

/-- Helper: a task fails a filter that pins the id and an assigned manager
the task does not have. -/
theorem taskMatches_false_of_mgr (f : TaskFilter) (t : Task) (tid m : Nat)
    (hid : f.id = some tid) (hmg : f.assignedManagerId = some m)
    (h : t.id = tid → t.assignedManagerId ≠ m) : taskMatches f t = false := by
  unfold taskMatches optMatch
  rw [hid, hmg]
  by_cases ht : t.id = tid
  · have hne : m ≠ t.assignedManagerId := fun he => h ht he.symm
    simp [ht, hne]
  · have hne : tid ≠ t.id := fun he => ht he.symm
    simp [hne]

/-- C1, amended: the tenant-scope gate does hold on the routes that apply
`requireResourceOwnership` — general edit (shown here for payloads that do
not reassign the manager), deletion, verification, and get-by-id all answer
`NotFound` (404) and leave the store unchanged when every task with the
requested id is owned by a different admin than the principal's resolved
scope.  `Start` and `SubmitForVerification`, whose routes omit that
middleware, are exactly the operations excluded (see the counterexample). -/
theorem C1_amended :
  (∀ (s : Store) (u : User) (tid : Nat) (upd : TaskUpdate),
    u.role = Role.Admin →
    (∀ t ∈ s.tasks, t.id = tid → t.adminId ≠ u.id) →
    upd.assignedManagerId = none →
    updateTaskRoute s u tid upd = (Except.error (ApiError.notFound "Task not found"), s)) ∧
  (∀ (s : Store) (u : User) (tid : Nat),
    u.role = Role.Admin →
    (∀ t ∈ s.tasks, t.id = tid → t.adminId ≠ u.id) →
    deleteTaskRoute s u tid = (Except.error (ApiError.notFound "Task not found"), s)) ∧
  (∀ (s : Store) (u : User) (tid : Nat) (action : VerifyAction)
      (vn rr : Option String) (now : Nat),
    u.role = Role.Admin →
    (∀ t ∈ s.tasks, t.id = tid → t.adminId ≠ u.id) →
    verifyRoute s u tid action vn rr now =
      if verifyValidation action rr then (Except.error (ApiError.notFound "Task not found"), s)
      else (Except.error (ApiError.validationFailed "Validation failed"), s)) ∧
  (∀ (s : Store) (u : User) (tid a : Nat),
    requireResourceOwnership u = some a →
    (∀ t ∈ s.tasks, t.id = tid → t.adminId ≠ a) →
    getTaskById s u tid = Except.error (ApiError.notFound "Task not found")) := by
  refine ⟨?_, ?_, ?_, ?_⟩
  · intro s u tid upd hrole hsc hmg
    have hrid : requireResourceOwnership u = some u.id := by
      simp [requireResourceOwnership, hrole]
    have hfind : findTask s { id := some tid, adminId := some u.id, isActive := some true } = none :=
      findTask_eq_none_of s _ (fun t ht =>
        taskMatches_false_of_admin _ t tid u.id rfl rfl (hsc t ht))
    simp [updateTaskRoute, updateTask, hrole, hrid, hmg, hfind]
  · intro s u tid hrole hsc
    have hrid : requireResourceOwnership u = some u.id := by
      simp [requireResourceOwnership, hrole]
    have hfind : findTask s { id := some tid, adminId := some u.id, isActive := some true } = none :=
      findTask_eq_none_of s _ (fun t ht =>
        taskMatches_false_of_admin _ t tid u.id rfl rfl (hsc t ht))
    simp [deleteTaskRoute, deleteTask, hrole, hrid, hfind]
  · intro s u tid action vn rr now hrole hsc
    have hfind : findTask s { id := some tid, isActive := some true, adminId := some u.id } = none :=
      findTask_eq_none_of s _ (fun t ht =>
        taskMatches_false_of_admin _ t tid u.id rfl rfl (hsc t ht))
    by_cases hval : verifyValidation action rr = true
    · simp [verifyRoute, hval, verifyTask, hrole, hfind]
    · simp [verifyRoute, Bool.eq_false_iff.mpr hval, verifyTask, hrole, hfind, hval]
  · intro s u tid a hrid hsc
    have hfa : (readScopeFilter u).adminId = some a := by
      unfold requireResourceOwnership at hrid
      unfold readScopeFilter
      cases hr : u.role
      · rw [hr] at hrid
        simp at hrid
        simp [hrid]
      · rw [hr] at hrid
        simp
        exact hrid
    have hfind : findTask s { readScopeFilter u with id := some tid } = none :=
      findTask_eq_none_of s _ (fun t ht =>
        taskMatches_false_of_admin _ t tid a rfl hfa (hsc t ht))
    simp [getTaskById, hfind]

/-- C1 witness: admin 1 deleting a task owned by admin 2 gets `NotFound` and
the store is untouched. -/
theorem C1_witness :
  deleteTaskRoute c1wStore c1wAdmin 7 =
    (Except.error (ApiError.notFound "Task not found"), c1wStore) :=
  C1_amended.2.1 c1wStore c1wAdmin 7 rfl (by decide)


/-- C1, counterexample: the tenant-scope gate is not applied on
`SubmitForVerification`.  Manager 10 is employed by admin 1 (resolved tenant
scope 1) while task 5 is owned by admin 2, yet the submit route mutates the
task to `PendingVerification` because the controller's manager branch filters
on assignment only.  This refutes the claim that every task mutation fails
when the principal's resolved tenant scope differs from the task's
owning-tenant identifier. -/
theorem C1_counterexample :
  requireResourceOwnership c1Mgr = some 1 ∧
  c1Task.adminId = 2 ∧
  (submitRoute c1Store c1Mgr 5 c1Url (some "done") 120).1 =
    Except.ok { c1Task with
      status := Status.PendingVerification,
      verificationPhotoUrl := some c1Url,
      completionNotes := some "done",
      actualEndTime := some 120 } ∧
  (submitRoute c1Store c1Mgr 5 c1Url (some "done") 120).2 ≠ c1Store := by
  decide

/-- C2, counterexample: a general edit (`PATCH /api/tasks/:id`) writes any
requested `status` directly.  Admin 1 moves task 6 from `Pending` straight to
`Completed` — not an edge of the lifecycle table — and receives success, not
`StateConflict`. -/
theorem C2_counterexample :
  c2Task.status = Status.Pending ∧
  (updateTaskRoute c2Store c2Admin 6 { status := some Status.Completed }).1 =
    Except.ok { c2Task with status := Status.Completed } ∧
  (updateTaskRoute c2Store c2Admin 6 { status := some Status.Completed }).2.tasks =
    [{ c2Task with status := Status.Completed }] := by
  decide

/-- C3, counterexample: approval does not clear `rejectionReason`.  Task 8 is
rejected with reason "blurry photo", its status is edited back to
`PendingVerification` through the general-edit path, and it is then approved:
the final task is `Completed` (most recent verification outcome an approval,
`verifiedAt = 60`) yet still carries the earlier rejection reason, refuting
the claimed if-and-only-if. -/
theorem C3_counterexample :
  (verifyRoute c3Store c3Admin 8 VerifyAction.reject none (some "blurry photo") 50).1 =
    Except.ok { c3Task with
      status := Status.RequiresAttention,
      rejectionReason := some "blurry photo",
      verifiedBy := some 1,
      verifiedAt := some 50 } ∧
  (verifyRoute c3Reset c3Admin 8 VerifyAction.approve (some "looks good") none 60).1 =
    Except.ok { c3Task with
      status := Status.Completed,
      rejectionReason := some "blurry photo",
      verificationNotes := some "looks good",
      verifiedBy := some 1,
      verifiedAt := some 60 } ∧
  c3Final.tasks.map Task.status = [Status.Completed] ∧
  c3Final.tasks.map Task.rejectionReason = [some "blurry photo"] := by
  decide

/-- C4, counterexample: the "trusted domain" check is a substring test, so a
URL on host `evil.example.com` that merely embeds the marker in its path does
*not* belong to the trusted evidence-store domain yet is accepted, refuting
the claim that every URL outside the trusted domain is rejected. -/
theorem C4_counterexample :
  specTrustedDomain c4EvilUrl = false ∧
  (submitRoute c4Store c4Mgr 9 c4EvilUrl (some "done") 130).1 =
    Except.ok { c4Task with
      status := Status.PendingVerification,
      verificationPhotoUrl := some c4EvilUrl,
      completionNotes := some "done",
      actualEndTime := some 130 } := by
  decide

/-- C5, counterexample: `priority` is a string field, so the MongoDB sort
`priority: -1` is descending *lexicographic* on the enum names.  Two tasks
share scheduled date 100; the `Medium` task is returned before the
`Critical` one, though `Critical` has the higher ordinal urgency, refuting
the claimed ordinal descending order. -/
theorem C5_counterexample :
  c5TaskC.scheduledDate = c5TaskM.scheduledDate ∧
  priorityRank c5TaskM.priority < priorityRank c5TaskC.priority ∧
  getTasks c5Store c5Admin {} = [c5TaskM, c5TaskC] := by
  decide

/-- C8, counterexample: the route validator requires the rejection reason to
be at least 5 characters after trimming, so `Verify(reject, "bad")` — a
non-empty reason — is rejected with a validation error and the task is left
untouched, refuting the claim that any non-empty reason is accepted. -/
theorem C8_counterexample :
  ¬("bad" = "") ∧
  c8Task.status = Status.PendingVerification ∧
  c8Task.adminId = c8Admin.id ∧
  verifyRoute c8Store c8Admin 11 VerifyAction.reject none (some "bad") 70 =
    (Except.error (ApiError.validationFailed "Validation failed"), c8Store) := by
  decide

/-- C9: the source implements `Start` as a `findOne` followed by a separate
`save`, not as an atomic conditional update.  Under the interleaving
read-1, read-2, write-1, write-2 of two concurrent `Start` calls on the same
`Pending` task, *both* read phases succeed (so both callers are answered with
success), and the second write overwrites the first `actualStart`; a
`StateConflict` only arises in the fully sequential schedule shown in the
last conjunct.  This exhibits the code-level violation of the claimed
compare-and-swap contract. -/
theorem C9_race :
  startRead c9Store c9Mgr none 3 10 = Except.ok c9T1 ∧
  startRead c9Store c9Mgr none 3 11 = Except.ok c9T2 ∧
  saveTask (saveTask c9Store c9T1) c9T2 = { c9Store with tasks := [c9T2] } ∧
  startTask (saveTask c9Store c9T1) c9Mgr none 3 11 =
    (Except.error (ApiError.stateConflict "Cannot start task. Current status: InProgress"),
     saveTask c9Store c9T1) := by
  decide

/-- C10: the trusted-domain validation is satisfied by any URL containing the
marker substring anywhere.  `c10Url` lives on host `files.attacker.net` — not
the evidence store's domain — embeds the marker in its path, passes the
check, and the task reaches `PendingVerification` with that URL persisted as
its verification photo reference. -/
theorem C10_substring_validation :
  hostOf c10Url = "files.attacker.net" ∧
  specTrustedDomain c10Url = false ∧
  strIncludes c10Url supabasePublicMarker = true ∧
  (submitRoute c10Store c10Mgr 12 c10Url none 40).1 =
    Except.ok { c10Task with
      status := Status.PendingVerification,
      verificationPhotoUrl := some c10Url,
      completionNotes := none,
      actualEndTime := some 40 } ∧
  (submitRoute c10Store c10Mgr 12 c10Url none 40).2.tasks.map Task.verificationPhotoUrl =
    [some c10Url] := by
  decide

/-- C2, amended: on the dedicated transition endpoints the lifecycle table is
enforced — `Start` from any status other than `Pending`,
`SubmitForVerification` from any status other than `InProgress`, and `Verify`
from any status other than `PendingVerification` fail with a `StateConflict`
whose message names the task's current status and leave the store unchanged
(no silent no-op), and every success follows the table's edge.  The
general-edit endpoint is excluded: it writes any requested status directly
(see the counterexample). -/
theorem C2_amended :
  (∀ (s : Store) (u : User) (rid : Option Nat) (tid now : Nat) (t : Task),
    findTask s (startFilter u rid tid) = some t →
    t.status ≠ Status.Pending →
    startTask s u rid tid now =
      (Except.error (ApiError.stateConflict
        ("Cannot start task. Current status: " ++ statusToString t.status)), s)) ∧
  (∀ (s : Store) (u : User) (rid : Option Nat) (tid now : Nat) (t' : Task),
    (startTask s u rid tid now).1 = Except.ok t' →
    ∃ t, findTask s (startFilter u rid tid) = some t ∧ t.status = Status.Pending ∧
      t' = { t with status := Status.InProgress, actualStartTime := some now } ∧
      startTask s u rid tid now = (Except.ok t', saveTask s t')) ∧
  (∀ (s : Store) (u : User) (rid : Option Nat) (tid : Nat) (url : String)
      (notes : Option String) (now : Nat) (t : Task),
    findTask s (submitFilter u rid tid) = some t →
    t.status ≠ Status.InProgress →
    submitForVerification s u rid tid url notes now =
      (Except.error (ApiError.stateConflict
        ("Cannot submit for verification. Current status: " ++ statusToString t.status)), s)) ∧
  (∀ (s : Store) (u : User) (rid : Option Nat) (tid : Nat) (url : String)
      (notes : Option String) (now : Nat) (t' : Task),
    (submitForVerification s u rid tid url notes now).1 = Except.ok t' →
    ∃ t, findTask s (submitFilter u rid tid) = some t ∧ t.status = Status.InProgress ∧
      t'.status = Status.PendingVerification) ∧
  (∀ (s : Store) (u : User) (tid : Nat) (action : VerifyAction)
      (vn rr : Option String) (now : Nat) (t : Task),
    u.role = Role.Admin →
    findTask s { id := some tid, isActive := some true, adminId := some u.id } = some t →
    t.status ≠ Status.PendingVerification →
    verifyTask s u tid action vn rr now =
      (Except.error (ApiError.stateConflict
        ("Cannot verify task. Current status: " ++ statusToString t.status)), s)) ∧
  (∀ (s : Store) (u : User) (tid : Nat) (action : VerifyAction)
      (vn rr : Option String) (now : Nat) (t' : Task),
    (verifyTask s u tid action vn rr now).1 = Except.ok t' →
    ∃ t, findTask s { id := some tid, isActive := some true, adminId := some u.id } = some t ∧
      t.status = Status.PendingVerification ∧
      t'.status = (match action with
        | VerifyAction.approve => Status.Completed
        | VerifyAction.reject => Status.RequiresAttention)) := by
  refine ⟨?_, ?_, ?_, ?_, ?_, ?_⟩
  · intro s u rid tid now t hf hs
    simp [startTask, startRead, hf, hs]
  · intro s u rid tid now t' h
    cases hf : findTask s (startFilter u rid tid) with
    | none => simp [startTask, startRead, hf] at h
    | some t =>
      by_cases hs : t.status = Status.Pending
      · simp [startTask, startRead, hf, hs] at h
        exact ⟨t, rfl, hs, h.symm, by simp [startTask, startRead, hf, hs, h]⟩
      · simp [startTask, startRead, hf, hs] at h
  · intro s u rid tid url notes now t hf hs
    simp [submitForVerification, hf, hs]
  · intro s u rid tid url notes now t' h
    cases hf : findTask s (submitFilter u rid tid) with
    | none => simp [submitForVerification, hf] at h
    | some t =>
      by_cases hs : t.status = Status.InProgress
      · by_cases hu : strIncludes url supabasePublicMarker = true
        · simp [submitForVerification, hf, hs, hu] at h
          exact ⟨t, rfl, hs, by rw [← h]⟩
        · simp [submitForVerification, hf, hs, hu] at h
      · simp [submitForVerification, hf, hs] at h
  · intro s u tid action vn rr now t hrole hf hs
    simp [verifyTask, hrole, hf, hs]
  · intro s u tid action vn rr now t' h
    by_cases hrole : u.role = Role.Admin
    · cases hf : findTask s { id := some tid, isActive := some true, adminId := some u.id } with
      | none => simp [verifyTask, hrole, hf] at h
      | some t =>
        by_cases hs : t.status = Status.PendingVerification
        · refine ⟨t, rfl, hs, ?_⟩
          cases action with
          | approve =>
            simp [verifyTask, hrole, hf, hs] at h
            rw [← h]
          | reject =>
            simp [verifyTask, hrole, hf, hs] at h
            rw [← h]
        · simp [verifyTask, hrole, hf, hs] at h
    · simp [verifyTask, hrole] at h

/-- C2 witness: `Start` on an `InProgress` task is answered with the
`StateConflict` message naming `InProgress`, and the store is unchanged. -/
theorem C2_witness :
  startTask c2wStore c2Admin (some 1) 13 77 =
    (Except.error (ApiError.stateConflict "Cannot start task. Current status: InProgress"),
     c2wStore) :=
  C2_amended.1 c2wStore c2Admin (some 1) 13 77 c2wTask (by decide) (by decide)

/-- C3, amended: a successful rejection stores the (trimmed) supplied reason,
which is non-empty because the route validator demands at least 5 characters;
but a successful approval leaves `rejectionReason` exactly as it was, so a
reason from an earlier rejection persists after a later approval (see the
counterexample) and the claimed if-and-only-if does not hold. -/
theorem C3_amended :
  (∀ (s : Store) (u : User) (tid : Nat) (vn : Option String) (r : String)
      (now : Nat) (t' : Task),
    (verifyRoute s u tid VerifyAction.reject vn (some r) now).1 = Except.ok t' →
    t'.rejectionReason = some (jsTrim r) ∧ ¬(jsTrim r = "")) ∧
  (∀ (s : Store) (u : User) (tid : Nat) (vn rr : Option String) (now : Nat) (t' : Task),
    (verifyRoute s u tid VerifyAction.approve vn rr now).1 = Except.ok t' →
    ∃ t, findTask s { id := some tid, isActive := some true, adminId := some u.id } = some t ∧
      t'.rejectionReason = t.rejectionReason ∧
      t'.status = Status.Completed ∧
      t'.verifiedAt = some now) := by
  constructor
  · intro s u tid vn r now t' h
    by_cases hval : verifyValidation VerifyAction.reject (some r) = true
    · have hne : ¬(jsTrim r = "") := by
        have hv := hval
        simp [verifyValidation, Bool.and_eq_true] at hv
        intro he
        rw [he] at hv
        exact absurd hv.1.2 (by decide)
      refine ⟨?_, hne⟩
      rw [verifyRoute, if_pos hval] at h
      by_cases hrole : u.role = Role.Admin
      · cases hf : findTask s { id := some tid, isActive := some true, adminId := some u.id } with
        | none => simp [verifyTask, hrole, hf] at h
        | some t =>
          by_cases hs : t.status = Status.PendingVerification
          · simp [verifyTask, hrole, hf, hs] at h
            rw [← h]
          · simp [verifyTask, hrole, hf, hs] at h
      · simp [verifyTask, hrole] at h
    · rw [verifyRoute, if_neg hval] at h
      simp at h
  · intro s u tid vn rr now t' h
    simp only [verifyRoute, verifyValidation, if_true, reduceIte] at h
    by_cases hrole : u.role = Role.Admin
    · cases hf : findTask s { id := some tid, isActive := some true, adminId := some u.id } with
      | none => simp [verifyTask, hrole, hf] at h
      | some t =>
        by_cases hs : t.status = Status.PendingVerification
        · simp [verifyTask, hrole, hf, hs] at h
          exact ⟨t, rfl, by rw [← h], by rw [← h], by rw [← h]⟩
        · simp [verifyTask, hrole, hf, hs] at h
    · simp [verifyTask, hrole] at h

/-- C3 witness: the rejection of task 8 with reason "blurry photo" stores
that reason, and the reason is non-empty. -/
theorem C3_witness :
  ({ c3Task with
      status := Status.RequiresAttention,
      rejectionReason := some "blurry photo",
      verifiedBy := some 1,
      verifiedAt := some 50 } : Task).rejectionReason = some (jsTrim "blurry photo") ∧
  ¬(jsTrim "blurry photo" = "") :=
  C3_amended.1 c3Store c3Admin 8 none "blurry photo" 50 _ (by decide)

/-- C4, amended: `SubmitForVerification` on an `InProgress` task is decided
by substring containment of the Supabase public-storage marker, not by the
URL's host: a URL without the marker is rejected with the invalid-photo-URL
error and the store is unchanged; a URL containing the marker anywhere is
accepted, setting status `PendingVerification`, persisting the URL and
completion notes, and stamping `actualEnd` with the current time. -/
theorem C4_amended :
  (∀ (s : Store) (u : User) (rid : Option Nat) (tid : Nat) (url : String)
      (notes : Option String) (now : Nat) (t : Task),
    findTask s (submitFilter u rid tid) = some t →
    t.status = Status.InProgress →
    strIncludes url supabasePublicMarker = false →
    submitForVerification s u rid tid url notes now =
      (Except.error (ApiError.invalidPayload
        "Invalid photo URL. Must be a valid Supabase storage URL."), s)) ∧
  (∀ (s : Store) (u : User) (rid : Option Nat) (tid : Nat) (url : String)
      (notes : Option String) (now : Nat) (t : Task),
    findTask s (submitFilter u rid tid) = some t →
    t.status = Status.InProgress →
    strIncludes url supabasePublicMarker = true →
    submitForVerification s u rid tid url notes now =
      (Except.ok { t with
          status := Status.PendingVerification,
          verificationPhotoUrl := some url,
          completionNotes := notes,
          actualEndTime := some now },
       saveTask s { t with
          status := Status.PendingVerification,
          verificationPhotoUrl := some url,
          completionNotes := notes,
          actualEndTime := some now })) := by
  constructor
  · intro s u rid tid url notes now t hf hs hurl
    simp [submitForVerification, hf, hs, hurl]
  · intro s u rid tid url notes now t hf hs hurl
    simp [submitForVerification, hf, hs, hurl]

/-- C4 witness: on the same `InProgress` task, a Google-storage URL (no
marker substring) is refused with the store unchanged, and a genuine
Supabase public URL is accepted with the evidence persisted and `actualEnd`
set. -/
theorem C4_witness :
  submitForVerification c4Store c4Mgr none 9 c4BadUrl none 130 =
    (Except.error (ApiError.invalidPayload
      "Invalid photo URL. Must be a valid Supabase storage URL."), c4Store) ∧
  submitForVerification c4Store c4Mgr none 9 c4GoodUrl (some "done") 130 =
    (Except.ok { c4Task with
        status := Status.PendingVerification,
        verificationPhotoUrl := some c4GoodUrl,
        completionNotes := some "done",
        actualEndTime := some 130 },
     saveTask c4Store { c4Task with
        status := Status.PendingVerification,
        verificationPhotoUrl := some c4GoodUrl,
        completionNotes := some "done",
        actualEndTime := some 130 }) :=
  ⟨C4_amended.1 c4Store c4Mgr none 9 c4BadUrl none 130 c4Task (by decide) (by decide) (by decide),
   C4_amended.2 c4Store c4Mgr none 9 c4GoodUrl (some "done") 130 c4Task (by decide) (by decide) (by decide)⟩

/-- C5, amended: the task list is returned sorted by `mongoTaskLE`, that is,
by scheduled date ascending and, within equal dates, by the *lexicographic*
byte order of the priority names descending (`Medium`, `Low`, `High`,
`Critical`) — not by ordinal urgency (see the counterexample). -/
theorem C5_amended : ∀ (s : Store) (u : User) (q : TaskQuery),
    List.Sorted mongoTaskLE (getTasks s u q) := by
  intro s u q
  unfold getTasks
  exact List.Pairwise.sublist
    ((List.take_sublist _ _).trans (List.drop_sublist _ _))
    (List.sorted_insertionSort mongoTaskLE _)

/-- Helper: a matching task agrees with a pinned assigned-manager constraint. -/
theorem eq_of_taskMatches_mgr (f : TaskFilter) (t : Task) (m : Nat)
    (hmg : f.assignedManagerId = some m) (h : taskMatches f t = true) :
    t.assignedManagerId = m := by
  unfold taskMatches at h
  simp only [Bool.and_eq_true] at h
  obtain ⟨⟨⟨⟨⟨⟨⟨hA, hB⟩, hC⟩, hD⟩, hE⟩, hF⟩, hG⟩, hH⟩ := h
  rw [hmg] at hC
  simp [optMatch] at hC
  exact hC.symm

/-- C6: creation by an admin whose referenced asset or referenced manager
does not resolve under the admin's own tenant scope (different owner,
inactive, or nonexistent) fails with an invalid-reference error and persists
nothing: the store is returned unchanged. -/
theorem C6_invalid_reference :
  ∀ (s : Store) (u : User) (inp : CreateTaskInput) (nid : Nat),
    u.role = Role.Admin →
    createValidation inp = true →
    (s.assets.find? (fun a => a.id = inp.assetId && a.adminId = u.id && a.isActive) = none ∨
     findManagerUnder s u.id inp.assignedManagerId = none) →
    ∃ msg, createTaskRoute s u inp nid = (Except.error (ApiError.invalidReference msg), s) := by
  intro s u inp nid hrole hval hmiss
  rcases hmiss with hA | hM
  · exact ⟨"Invalid asset ID or asset not found",
      by simp [createTaskRoute, hrole, hval, createTask, hA]⟩
  · cases hA : s.assets.find? (fun a => a.id = inp.assetId && a.adminId = u.id && a.isActive) with
    | none =>
      exact ⟨"Invalid asset ID or asset not found",
        by simp [createTaskRoute, hrole, hval, createTask, hA]⟩
    | some asset =>
      exact ⟨"Invalid manager ID or manager not found",
        by simp [createTaskRoute, hrole, hval, createTask, hA, hM]⟩

/-- C6 witness: admin 1 creating a task against an asset owned by admin 2
gets an invalid-reference error and the store (here: no tasks) is unchanged. -/
theorem C6_witness :
  ∃ msg, createTaskRoute c6Store c6Admin c6Inp 99 =
    (Except.error (ApiError.invalidReference msg), c6Store) :=
  C6_invalid_reference c6Store c6Admin c6Inp 99 rfl (by decide) (Or.inl (by decide))

/-- C7: for a manager principal, both reads hide tasks assigned to someone
else: `getTaskById` answers the 404 `NotFound` error (never the 403
`Forbidden`) whenever every task with the requested id has a different
assignee, and every task in a `getTasks` listing is assigned to the
requesting manager. -/
theorem C7_not_found :
  ∀ (s : Store) (u : User) (tid : Nat) (q : TaskQuery),
    u.role = Role.Manager →
    (∀ t ∈ s.tasks, t.id = tid → t.assignedManagerId ≠ u.id) →
    getTaskById s u tid = Except.error (ApiError.notFound "Task not found") ∧
    (ApiError.notFound "Task not found").httpStatus = 404 ∧
    ∀ t ∈ getTasks s u q, t.assignedManagerId = u.id := by
  intro s u tid q hrole hsc
  have hfm : (readScopeFilter u).assignedManagerId = some u.id := by
    simp [readScopeFilter, hrole]
  refine ⟨?_, rfl, ?_⟩
  · have hfind : findTask s { readScopeFilter u with id := some tid } = none :=
      findTask_eq_none_of s _ (fun t ht =>
        taskMatches_false_of_mgr _ t tid u.id rfl hfm (hsc t ht))
    simp [getTaskById, hfind]
  · intro t ht
    unfold getTasks at ht
    have h1 := List.mem_of_mem_take ht
    have h2 := List.mem_of_mem_drop h1
    rw [List.mem_insertionSort] at h2
    rw [List.mem_filter] at h2
    refine eq_of_taskMatches_mgr _ t u.id ?_ h2.2
    exact hfm

/-- C7 witness: manager 10 fetching task 7 (assigned to manager 11) gets the
404 `NotFound` error, and listing returns only tasks assigned to manager 10. -/
theorem C7_witness :
  getTaskById c7Store c7Mgr 7 = Except.error (ApiError.notFound "Task not found") ∧
  (ApiError.notFound "Task not found").httpStatus = 404 ∧
  ∀ t ∈ getTasks c7Store c7Mgr {}, t.assignedManagerId = c7Mgr.id :=
  C7_not_found c7Store c7Mgr 7 {} rfl (by decide)

/-- C8, amended: for a `PendingVerification` task owned by the verifying
admin, `Verify(reject)` is accepted exactly when the rejection reason passes
the route validator — present, non-empty, and of trimmed length between 5
and 500 (so the empty reason of the claim is refused, but so is any shorter
non-empty reason, see the counterexample); rejection then sets
`RequiresAttention` and records the verifier identity, verification time,
verification notes and the (trimmed) rejection reason, while any reason
failing the validator is refused with the store unchanged. -/
theorem C8_amended :
  (∀ (s : Store) (u : User) (tid : Nat) (vn rr : Option String) (now : Nat),
    verifyValidation VerifyAction.reject rr = false →
    verifyRoute s u tid VerifyAction.reject vn rr now =
      (Except.error (ApiError.validationFailed "Validation failed"), s)) ∧
  (∀ (s : Store) (u : User) (tid : Nat) (vn : Option String) (r : String)
      (now : Nat) (t : Task),
    verifyValidation VerifyAction.reject (some r) = true →
    u.role = Role.Admin →
    findTask s { id := some tid, isActive := some true, adminId := some u.id } = some t →
    t.status = Status.PendingVerification →
    verifyRoute s u tid VerifyAction.reject vn (some r) now =
      (Except.ok { t with
          status := Status.RequiresAttention,
          rejectionReason := some (jsTrim r),
          verificationNotes := vn,
          verifiedBy := some u.id,
          verifiedAt := some now },
       saveTask s { t with
          status := Status.RequiresAttention,
          rejectionReason := some (jsTrim r),
          verificationNotes := vn,
          verifiedBy := some u.id,
          verifiedAt := some now })) := by
  constructor
  · intro s u tid vn rr now hval
    simp [verifyRoute, hval]
  · intro s u tid vn r now t hval hrole hf hs
    simp [verifyRoute, hval, verifyTask, hrole, hf, hs]

/-- C8 witness: rejecting task 11 with the valid reason "blurry photo"
yields `RequiresAttention` with verifier 1, time 70, and the reason stored. -/
theorem C8_witness :
  verifyRoute c8Store c8Admin 11 VerifyAction.reject (some "retake it") (some "blurry photo") 70 =
    (Except.ok { c8Task with
        status := Status.RequiresAttention,
        rejectionReason := some (jsTrim "blurry photo"),
        verificationNotes := some "retake it",
        verifiedBy := some 1,
        verifiedAt := some 70 },
     saveTask c8Store { c8Task with
        status := Status.RequiresAttention,
        rejectionReason := some (jsTrim "blurry photo"),
        verificationNotes := some "retake it",
        verifiedBy := some 1,
        verifiedAt := some 70 }) :=
  C8_amended.2 c8Store c8Admin 11 (some "retake it") "blurry photo" 70 c8Task
    (by decide) rfl (by decide) rfl

end Maintainly
